import Mathlib

/-!
Verification development for the wsl2micinput repository.

The Python sources (`src/utils.py`, `src/audio_backends.py`,
`src/voice_input.py`) are shallowly embedded below.  External library
calls (PyAudio, sounddevice, numpy, SpeechRecognition, the filesystem
and the process environment) are modelled as explicit oracle
parameters; everything the repository's own code computes is
translated directly.
-/

/-- Python truthiness of an optional string: `None` and `""` are falsy. -/
def truthy : Option String → Bool
  | none => false
  | some s => s != ""

/-- Python `int()` applied to an exact rational: truncation toward zero. -/
def pythonInt (x : ℚ) : ℤ := if 0 ≤ x then ⌊x⌋ else ⌈x⌉

/-- Python's `str.lower()`: lower-case every character. -/
def py_lower (s : String) : String := ⟨s.data.map Char.toLower⟩

/-- Python's `needle in hay` on strings, over the character lists. -/
def contains_sub (needle : List Char) : List Char → Bool
  | [] => needle.isEmpty
  | c :: rest => needle.isPrefixOf (c :: rest) || contains_sub needle rest

/-- A Python value as it appears in the dictionaries this repository builds. -/
inductive PVal where
  | pint : ℤ → PVal
  | pstr : String → PVal
  | prat : ℚ → PVal
  | pbool : Bool → PVal
  | pnone : PVal
deriving DecidableEq

/-- A Python dictionary with string keys, as a key/value association list. -/
abbrev Dict := List (String × PVal)

/-! ## `src/utils.py` -/

/-- The dictionary-shaped result of `check_wsl2_audio`. -/
structure AudioStatus where
  is_wsl2 : Bool
  wslg_available : Bool
  pulse_server : Option String
  display : Option String
  audio_available : Bool
  issues : List String
deriving DecidableEq

/-- Model of `utils.check_wsl2_audio`, with the environment probes
(`is_wsl2()`, existence of `/mnt/wslg`, the two environment variables,
success of `pactl info`) passed in as oracles. -/
def check_wsl2_audio (iswsl2 wslg : Bool) (pulse disp : Option String)
    (pactl_ok : Bool) : AudioStatus :=
  if iswsl2 = false then
    { is_wsl2 := iswsl2, wslg_available := wslg, pulse_server := pulse,
      display := disp, audio_available := false,
      issues := ["Not running on WSL2"] }
  else
    let issues1 : List String :=
      if wslg = false then ["WSLg not detected - run 'wsl --update'"] else []
    let issues2 : List String :=
      if truthy pulse = false then
        issues1 ++ ["PULSE_SERVER not set - audio may not work"]
      else issues1
    if pactl_ok then
      { is_wsl2 := iswsl2, wslg_available := wslg, pulse_server := pulse,
        display := disp, audio_available := true, issues := issues2 }
    else
      { is_wsl2 := iswsl2, wslg_available := wslg, pulse_server := pulse,
        display := disp, audio_available := false,
        issues := issues2 ++ ["Cannot connect to PulseAudio server"] }

/-- One entry of PyAudio's `get_device_info_by_index`. -/
structure PaDeviceInfo where
  name : String
  maxInputChannels : ℤ
  defaultSampleRate : ℚ
deriving DecidableEq

/-- One entry of sounddevice's `query_devices()`. -/
structure SdDeviceInfo where
  name : String
  max_input_channels : ℤ
  default_samplerate : ℚ
deriving DecidableEq

/-- The dictionary `utils.list_audio_devices` builds for a PyAudio device. -/
def pa_device_dict (i : ℕ) (info : PaDeviceInfo) : Dict :=
  [("index", .pint i),
   ("name", .pstr info.name),
   ("channels", .pint info.maxInputChannels),
   ("sample_rate", .pint (pythonInt info.defaultSampleRate)),
   ("backend", .pstr "pyaudio")]

/-- The dictionary `utils.list_audio_devices` builds for a sounddevice device. -/
def sd_device_dict (i : ℕ) (info : SdDeviceInfo) : Dict :=
  [("index", .pint i),
   ("name", .pstr info.name),
   ("channels", .pint info.max_input_channels),
   ("sample_rate", .pint (pythonInt info.default_samplerate)),
   ("backend", .pstr "sounddevice")]

/-- Model of `utils.list_audio_devices`.  The two enumeration attempts are oracles:
`.error` means the import or the enumeration raised.  PyAudio is tried
first; sounddevice is consulted only when the PyAudio pass produced no
devices; any exception is caught and contributes nothing. -/
def list_audio_devices (py : Except String (List PaDeviceInfo))
    (sd : Except String (List SdDeviceInfo)) : List Dict :=
  let pyDevs : List Dict :=
    match py with
    | .ok infos =>
        ((infos.enum).filter (fun p => 0 < p.2.maxInputChannels)).map
          (fun p => pa_device_dict p.1 p.2)
    | .error _ => []
  if pyDevs = [] then
    match sd with
    | .ok infos =>
        ((infos.enum).filter (fun p => 0 < p.2.max_input_channels)).map
          (fun p => sd_device_dict p.1 p.2)
    | .error _ => []
  else pyDevs

/-- Model of `"default" in name.lower()`: case-insensitive substring test on the
`"name"` field of a device dictionary. -/
def has_default (d : Dict) : Bool :=
  match d.lookup "name" with
  | some (.pstr s) => contains_sub "default".data (py_lower s).data
  | _ => false

/-- Model of `utils.get_default_input_device`: `None` on an empty listing, else the
first device whose name contains `"default"`, else the first device. -/
def get_default_input_device (py : Except String (List PaDeviceInfo))
    (sd : Except String (List SdDeviceInfo)) : Option Dict :=
  let devices := list_audio_devices py sd
  if devices = [] then none
  else
    match devices.find? has_default with
    | some d => some d
    | none => devices.head?

/-- The slice of the process environment `setup_wsl2_audio_env` touches. -/
structure EnvState where
  pulse : Option String
  display : Option String
deriving DecidableEq

/-- The filesystem facts `setup_wsl2_audio_env` probes. -/
structure FsWorld where
  pulseServerFile : Bool
  wslgDir : Bool
deriving DecidableEq

/-- The final statement of `setup_wsl2_audio_env`: set `DISPLAY` to
`":0"` when it is falsy and `/mnt/wslg` exists. -/
def setup_env_display (w : FsWorld) (env : EnvState) : EnvState :=
  if truthy env.display = false ∧ w.wslgDir then
    { env with display := some ":0" }
  else env

/-- Model of `utils.setup_wsl2_audio_env`: return early when `PULSE_SERVER` is
truthy; otherwise point it at the WSLg relay when that file exists, then
apply the `DISPLAY` step. -/
def setup_wsl2_audio_env (w : FsWorld) (env : EnvState) : EnvState :=
  if truthy env.pulse then env
  else
    setup_env_display w
      (if w.pulseServerFile then
        { env with pulse := some "/mnt/wslg/PulseServer" }
      else env)

/-! ## `src/audio_backends.py` -/

/-- Model of `get_audio_backend`.  Backend-class availability (whether the
`pyaudio` / `sounddevice` imports in the constructors succeed) is an
oracle; the result is the chosen backend class name, or the message of
the `ImportError` that propagates to the caller. -/
def get_audio_backend (pyAvailable sdAvailable : Bool)
    (backend_name : Option String) : Except String String :=
  if backend_name = some "pyaudio" then
    if pyAvailable then .ok "PyAudioBackend"
    else .error "PyAudio not installed. Run: pip install pyaudio"
  else if backend_name = some "sounddevice" then
    if sdAvailable then .ok "SoundDeviceBackend"
    else .error "Sounddevice not installed. Run: pip install sounddevice"
  else
    if pyAvailable then .ok "PyAudioBackend"
    else if sdAvailable then .ok "SoundDeviceBackend"
    else .error "No audio backend available. Install either PyAudio or sounddevice"

namespace PyAudioBackend

/-- Model of `int(self.sample_rate / self.chunk_size * duration)`, clamped the way
`range` clamps a negative argument. -/
def num_chunks (sample_rate chunk_size : ℕ) (d : ℚ) : ℕ :=
  (pythonInt ((sample_rate : ℚ) / (chunk_size : ℚ) * d)).toNat

/-- Model of `PyAudioBackend.record`: read `num_chunks` chunks from the stream
(an oracle giving the int16 samples of each `stream.read(chunk_size)`),
join the byte strings and reinterpret as int16, i.e. concatenate. -/
def record (sample_rate chunk_size : ℕ) (d : ℚ)
    (read : ℕ → List ℤ) : List ℤ :=
  ((List.range (num_chunks sample_rate chunk_size d)).map read).flatten

end PyAudioBackend

namespace SoundDeviceBackend

/-- Model of `SoundDeviceBackend.record`: `sd.rec(int(duration * sample_rate), ...)`
returns a `(frames, channels)`-shaped int16 array (entry `(i, c)` given by
the oracle `sample`), which is then flattened row-major. -/
def record (sample_rate channels : ℕ) (d : ℚ)
    (sample : ℕ → ℕ → ℤ) : List ℤ :=
  ((List.range ((pythonInt (d * (sample_rate : ℚ))).toNat)).map
    (fun i => (List.range channels).map (sample i))).flatten

end SoundDeviceBackend

/-! ## `src/voice_input.py` -/

/-- The `AudioDevice` dataclass. -/
structure AudioDevice where
  index : ℤ
  name : String
  channels : ℤ
  sample_rate : ℤ
  backend : String
deriving DecidableEq

/-- The device dictionary a backend's own `list_devices` builds for a
PyAudio device (note: no `"backend"` key). -/
def backend_device_dict (i : ℕ) (info : PaDeviceInfo) : Dict :=
  [("index", .pint i),
   ("name", .pstr info.name),
   ("channels", .pint info.maxInputChannels),
   ("sample_rate", .pint (pythonInt info.defaultSampleRate))]

/-- Model of `PyAudioBackend.list_devices`: enumerate, keep input-capable devices. -/
def pyaudio_backend_list_devices (infos : List PaDeviceInfo) : List Dict :=
  ((infos.enum).filter (fun p => 0 < p.2.maxInputChannels)).map
    (fun p => backend_device_dict p.1 p.2)

/-- The body of the loop in `VoiceInput.list_devices`: build an
`AudioDevice` from a backend dictionary; a missing mandatory key is a
`KeyError` (`none`), while the `"backend"` key falls back to the backend
class name via `.get`. -/
def dict_to_audio_device (cls : String) (d : Dict) : Option AudioDevice :=
  match d.lookup "index", d.lookup "name", d.lookup "channels",
      d.lookup "sample_rate" with
  | some (.pint i), some (.pstr n), some (.pint c), some (.pint r) =>
      some ⟨i, n, c, r,
        match d.lookup "backend" with
        | some (.pstr b) => b
        | _ => cls⟩
  | _, _, _, _ => none

/-- Model of `VoiceInput.list_devices`: convert every backend dictionary, in order. -/
def voiceinput_list_devices (cls : String) : List Dict → Option (List AudioDevice)
  | [] => some []
  | d :: rest =>
      match dict_to_audio_device cls d, voiceinput_list_devices cls rest with
      | some a, some tl => some (a :: tl)
      | _, _ => none

/-- Model of `VoiceInput._recognize_speech`: dispatch on the engine name inside a
`try` block; the per-engine recognizer calls are oracles; any exception
(including the `ValueError` for an unknown engine) yields `None`. -/
def recognize_speech (engine : String)
    (google sphinx google_cloud : Except String String) : Option String :=
  match
    (if engine = "google" then google
     else if engine = "sphinx" then sphinx
     else if engine = "google_cloud" then google_cloud
     else .error ("Unknown recognition engine: " ++ engine)) with
  | .ok text => some text
  | .error _ => none

/-- Model of `VoiceInput.listen`: a `RuntimeError` propagates when the recognizer
is absent; otherwise the whole body is wrapped in a `try` that turns any
exception into `None`.  `body` is the oracle for the microphone /
recognition pipeline: `.ok r` is a normal return of `r`, `.error` an
exception inside the `try`. -/
def voiceinput_listen (recognizer_present : Bool)
    (body : Except String (Option String)) : Except String (Option String) :=
  if recognizer_present = false then
    .error "Speech recognition not initialized"
  else
    match body with
    | .ok r => .ok r
    | .error _ => .ok none

/-- Model of `VoiceInput.record`: no `try`/`except` — the backend's result (or
exception) passes straight through. -/
def voiceinput_record (backend_result : Except String (List ℤ)) :
    Except String (List ℤ) :=
  backend_result

/-- Model of `VoiceInput.listen_continuous`, run against the trace of values the
successive `self.listen(...)` calls return.  Falsy results (`None` or
`""`) are skipped; a truthy result case-insensitively equal to the stop
phrase breaks out of the loop; other truthy results are yielded.  The
second component is `is_listening` after the generator finishes — the
`finally` block always clears it. -/
def listen_continuous_run (stop_phrase : String) :
    List (Option String) → List String × Bool
  | [] => ([], false)
  | r :: rest =>
      match r with
      | none => listen_continuous_run stop_phrase rest
      | some text =>
          if text = "" then listen_continuous_run stop_phrase rest
          else if py_lower text = py_lower stop_phrase then ([], false)
          else
            let cont := listen_continuous_run stop_phrase rest
            (text :: cont.1, cont.2)

/-- Model of `VoiceInput.calibrate`: the numpy noise statistics of the recorded
buffer are oracles; the returned dictionary and the
`max(300, noise_level * 4)` threshold update are translated directly. -/
def calibrate (recognizer_present : Bool)
    (noise_level max_amplitude : ℚ) : Dict :=
  [("noise_level", .prat noise_level),
   ("max_amplitude", .prat max_amplitude),
   ("energy_threshold",
     if recognizer_present then .prat (max 300 (noise_level * 4)) else .pnone),
   ("calibrated", .pbool true)]

/-- The WAV container `VoiceInput.save_recording` writes. -/
structure WavFile where
  nchannels : ℕ
  sampwidth : ℕ
  framerate : ℕ
  frames : List ℤ
deriving DecidableEq

/-- Model of the `np.int16` cast of a float value: truncate toward zero, wrap mod 2^16
into `[-32768, 32768)`. -/
def int16_of_rat (x : ℚ) : ℤ := (pythonInt x + 32768) % 65536 - 32768

/-- The int16 range predicate `-32768 ≤ n ≤ 32767`. -/
def is_int16 (n : ℤ) : Prop := -32768 ≤ n ∧ n ≤ 32767

instance (n : ℤ) : Decidable (is_int16 n) := by
  unfold is_int16; infer_instance

/-- An audio argument to `save_recording`: either an int16 array or a
float array. -/
abbrev AudioData := List ℤ ⊕ List ℚ

/-- The int16 well-typedness of an `AudioData`: an int16 array carries
int16 samples (a float array carries anything). -/
def int16_input : AudioData → Prop
  | .inl a => ∀ s ∈ a, is_int16 s
  | .inr _ => True

instance (a : AudioData) : Decidable (int16_input a) := by
  unfold int16_input; cases a <;> infer_instance

/-- Model of `VoiceInput.save_recording`: non-int16 data is multiplied by 32767 and
cast to int16; the container gets the backend's channel count, sample
width 2 and the backend's sample rate. -/
def save_recording (channels sample_rate : ℕ) (audio : AudioData) : WavFile :=
  { nchannels := channels,
    sampwidth := 2,
    framerate := sample_rate,
    frames :=
      match audio with
      | .inl a => a
      | .inr f => f.map (fun x => int16_of_rat (x * 32767)) }

/-- A device dictionary is well-shaped: it carries a numeric index, a
display name, a channel count, a sample rate and a backend name. -/
def well_shaped (d : Dict) : Prop :=
  (∃ n : ℤ, d.lookup "index" = some (.pint n)) ∧
  (∃ s : String, d.lookup "name" = some (.pstr s)) ∧
  (∃ c : ℤ, d.lookup "channels" = some (.pint c)) ∧
  (∃ r : ℤ, d.lookup "sample_rate" = some (.pint r)) ∧
  (∃ b : String, d.lookup "backend" = some (.pstr b))

/-! ## Helper lemmas -/

theorem flatten_map_length {α β : Type} (f : α → List β) (k : ℕ) :
    ∀ l : List α, (∀ a ∈ l, (f a).length = k) →
      ((l.map f).flatten).length = l.length * k := by
  intro l
  induction l with
  | nil => simp
  | cons a l ih =>
    intro h
    have ha := h a (List.mem_cons_self a l)
    have hl := ih (fun x hx => h x (List.mem_cons_of_mem a hx))
    simp only [List.map_cons, List.flatten_cons, List.length_append, ha, hl,
      List.length_cons]
    ring

theorem pyaudio_record_length (sample_rate chunk_size : ℕ) (d : ℚ)
    (read : ℕ → List ℤ) (k : ℕ) (hread : ∀ i, (read i).length = k) :
    (PyAudioBackend.record sample_rate chunk_size d read).length =
      PyAudioBackend.num_chunks sample_rate chunk_size d * k := by
  unfold PyAudioBackend.record
  rw [flatten_map_length read k _ (fun a _ => hread a), List.length_range]

theorem sounddevice_record_length (sample_rate channels : ℕ) (d : ℚ)
    (sample : ℕ → ℕ → ℤ) :
    (SoundDeviceBackend.record sample_rate channels d sample).length =
      (pythonInt (d * (sample_rate : ℚ))).toNat * channels := by
  unfold SoundDeviceBackend.record
  rw [flatten_map_length _ channels _ (fun a _ => by simp), List.length_range]

theorem find?_first {p : Dict → Bool} :
    ∀ (l : List Dict) (d : Dict), l.find? p = some d →
      ∃ i, i < l.length ∧ (l.drop i).head? = some d ∧ p d = true ∧
        ∀ d' ∈ l.take i, p d' = false := by
  intro l
  induction l with
  | nil => intro d h; simp at h
  | cons a l ih =>
    intro d h
    by_cases hp : p a
    · rw [List.find?_cons_of_pos _ hp] at h
      obtain rfl : a = d := by injection h
      exact ⟨0, by simp, by simp, hp, by simp⟩
    · rw [List.find?_cons_of_neg _ hp] at h
      obtain ⟨i, hi, hd, hpd, hall⟩ := ih d h
      refine ⟨i + 1, by simpa using Nat.succ_lt_succ hi, by simpa using hd, hpd, ?_⟩
      intro d' hd'
      rcases List.mem_cons.mp (by simpa using hd') with h1 | h1
      · subst h1; simpa using hp
      · exact hall d' h1

theorem vld_all_ok (cls : String) :
    ∀ ds : List Dict,
      (∀ d ∈ ds, ∃ a : AudioDevice,
          dict_to_audio_device cls d = some a ∧ a.backend = cls) →
      ∃ devs, voiceinput_list_devices cls ds = some devs ∧
        ∀ a ∈ devs, a.backend = cls := by
  intro ds
  induction ds with
  | nil => exact fun _ => ⟨[], rfl, by simp⟩
  | cons d rest ih =>
    intro h
    obtain ⟨a, ha, hb⟩ := h d (List.mem_cons_self d rest)
    obtain ⟨devs, hdevs, hall⟩ := ih (fun x hx => h x (List.mem_cons_of_mem d hx))
    refine ⟨a :: devs, ?_, ?_⟩
    · simp [voiceinput_list_devices, ha, hdevs]
    · intro x hx
      rcases List.mem_cons.mp hx with h1 | h1
      · subst h1; exact hb
      · exact hall x h1

/-! ## Claim theorems -/

/-- Claim C1 (counterexample to the claim as stated): on the trace
`["Stop Listening", "hi", "stop listening"]` the generator stops at the
first, case-insensitive match and yields nothing, while the claim —
which predicates termination on equality with the configured stop
phrase — predicts the two phrases preceding the exact occurrence. -/
theorem C1_counterexample :
    (listen_continuous_run "stop listening"
        [some "Stop Listening", some "hi", some "stop listening"]).1 ≠
      (([some "Stop Listening", some "hi", some "stop listening"] :
          List (Option String)).filterMap id).takeWhile
        (fun t => !(t == "stop listening")) := by
  decide

/-- Claim C1 (amended): for every trace of `listen` results,
`listen_continuous` yields exactly the truthy results (`None` and `""`
are skipped) that precede the first result case-insensitively equal to
the stop phrase, that result itself is never yielded and nothing after
it is consumed, and `is_listening` is `False` once the generator
finishes. -/
theorem C1_listen_continuous_amended (stop_phrase : String)
    (trace : List (Option String)) :
    listen_continuous_run stop_phrase trace =
      (((trace.filterMap id).filter (fun t => !(t == ""))).takeWhile
          (fun t => !(py_lower t == py_lower stop_phrase)), false) := by
  induction trace with
  | nil => rfl
  | cons r rest ih =>
    cases r with
    | none => simpa [listen_continuous_run] using ih
    | some t =>
      by_cases ht : t = ""
      · subst ht; simpa [listen_continuous_run] using ih
      · by_cases hs : py_lower t = py_lower stop_phrase
        · simp [listen_continuous_run, ht, hs]
        · simp [listen_continuous_run, ht, hs, ih]

/-- Claim C2 (counterexample to the claim as stated): `get_audio_backend`
does not degrade to a sentinel when both backend imports fail — the
`ImportError` propagates to the caller. -/
theorem C2_counterexample :
    get_audio_backend false false none =
      .error "No audio backend available. Install either PyAudio or sounddevice" := by
  rfl

/-- Claim C2 (amended): the runtime operations — device enumeration,
speech recognition, the body of `listen` — catch exceptions and return
sentinels, but backend selection propagates an `ImportError` when the
backend is unavailable, and `listen` raises a `RuntimeError` when the
recognizer is absent. -/
theorem C2_error_handling_amended (e1 e2 e3 e4 e5 engine : String) :
    list_audio_devices (.error e1) (.error e2) = [] ∧
    recognize_speech engine (.error e1) (.error e2) (.error e3) = none ∧
    voiceinput_listen true (.error e4) = .ok none ∧
    voiceinput_listen false (.ok (some e5)) =
      .error "Speech recognition not initialized" ∧
    (get_audio_backend false false none).isOk = false ∧
    (get_audio_backend false true (some "pyaudio")).isOk = false := by
  refine ⟨rfl, ?_, rfl, rfl, rfl, rfl⟩
  unfold recognize_speech
  split_ifs <;> rfl

/-- Claim C3 (counterexample to the claim as stated): with the common
configuration `sample_rate = 16000`, `chunk_size = 1024`, one channel and
duration 1, the PyAudio backend returns 15360 samples while the
sounddevice backend returns 16000 — the buffers do not have the same
length. -/
theorem C3_counterexample :
    (PyAudioBackend.record 16000 1024 1 (fun _ => List.replicate 1024 0)).length ≠
      (SoundDeviceBackend.record 16000 1 1 (fun _ _ => 0)).length := by
  rw [pyaudio_record_length 16000 1024 1 _ 1024
        (fun _ => List.length_replicate 1024 0),
      sounddevice_record_length]
  have h1 : PyAudioBackend.num_chunks 16000 1024 1 = 15 := by
    unfold PyAudioBackend.num_chunks pythonInt
    rw [if_pos (by positivity),
      (show ⌊((16000 : ℕ) : ℚ) / ((1024 : ℕ) : ℚ) * 1⌋ = (15 : ℤ) by
        push_cast; norm_num)]
    decide
  have h2 : pythonInt (1 * ((16000 : ℕ) : ℚ)) = 16000 := by
    unfold pythonInt
    rw [if_pos (by positivity)]
    push_cast
    norm_num
  rw [h1, h2]
  decide

/-- Claim C3 (amended): behind the shared interface both backends return
int16 sample buffers, but of different lengths in general — for a
nonnegative duration `d` the PyAudio backend returns
`⌊sample_rate / chunk_size * d⌋ * chunk_size * channels` samples, the
sounddevice backend `⌊d * sample_rate⌋ * channels`, and the PyAudio
count never exceeds the sounddevice count. -/
theorem C3_backends_amended (sample_rate chunk_size channels : ℕ) (d : ℚ)
    (read : ℕ → List ℤ) (sample : ℕ → ℕ → ℤ)
    (hd : 0 ≤ d) (hchunk : 0 < chunk_size)
    (hread : ∀ i, (read i).length = chunk_size * channels) :
    (PyAudioBackend.record sample_rate chunk_size d read).length =
      PyAudioBackend.num_chunks sample_rate chunk_size d *
        (chunk_size * channels) ∧
    (SoundDeviceBackend.record sample_rate channels d sample).length =
      (pythonInt (d * (sample_rate : ℚ))).toNat * channels ∧
    (PyAudioBackend.record sample_rate chunk_size d read).length ≤
      (SoundDeviceBackend.record sample_rate channels d sample).length := by
  have hpy := pyaudio_record_length sample_rate chunk_size d read
    (chunk_size * channels) hread
  have hsd := sounddevice_record_length sample_rate channels d sample
  refine ⟨hpy, hsd, ?_⟩
  rw [hpy, hsd]
  have hq0 : 0 ≤ (sample_rate : ℚ) / (chunk_size : ℚ) * d := by
    apply mul_nonneg _ hd
    positivity
  have hq1 : PyAudioBackend.num_chunks sample_rate chunk_size d =
      (⌊(sample_rate : ℚ) / (chunk_size : ℚ) * d⌋).toNat := by
    unfold PyAudioBackend.num_chunks pythonInt
    rw [if_pos hq0]
  have hds0 : 0 ≤ d * (sample_rate : ℚ) := mul_nonneg hd (by positivity)
  have hds1 : pythonInt (d * (sample_rate : ℚ)) = ⌊d * (sample_rate : ℚ)⌋ := by
    unfold pythonInt
    rw [if_pos hds0]
  rw [hq1, hds1]
  have hfq : 0 ≤ ⌊(sample_rate : ℚ) / (chunk_size : ℚ) * d⌋ :=
    Int.floor_nonneg.mpr hq0
  have hfd : 0 ≤ ⌊d * (sample_rate : ℚ)⌋ := Int.floor_nonneg.mpr hds0
  have key : ⌊(sample_rate : ℚ) / (chunk_size : ℚ) * d⌋ * (chunk_size : ℤ) ≤
      ⌊d * (sample_rate : ℚ)⌋ := by
    rw [Int.le_floor]
    have h1 : ((⌊(sample_rate : ℚ) / (chunk_size : ℚ) * d⌋ : ℚ)) ≤
        (sample_rate : ℚ) / (chunk_size : ℚ) * d := Int.floor_le _
    have h2 := mul_le_mul_of_nonneg_right h1
      (show (0 : ℚ) ≤ (chunk_size : ℚ) by positivity)
    have hc : (chunk_size : ℚ) ≠ 0 := Nat.cast_ne_zero.mpr hchunk.ne'
    have h3 : ((sample_rate : ℚ) / (chunk_size : ℚ) * d) * (chunk_size : ℚ) =
        d * (sample_rate : ℚ) := by
      field_simp
      ring
    push_cast
    rw [← h3]
    exact h2
  have key2 : (⌊(sample_rate : ℚ) / (chunk_size : ℚ) * d⌋).toNat * chunk_size ≤
      (⌊d * (sample_rate : ℚ)⌋).toNat := by
    zify
    rw [Int.toNat_of_nonneg hfq, Int.toNat_of_nonneg hfd]
    exact key
  calc (⌊(sample_rate : ℚ) / (chunk_size : ℚ) * d⌋).toNat *
        (chunk_size * channels)
      = ((⌊(sample_rate : ℚ) / (chunk_size : ℚ) * d⌋).toNat * chunk_size) *
          channels := by ring
    _ ≤ (⌊d * (sample_rate : ℚ)⌋).toNat * channels :=
        Nat.mul_le_mul_right channels key2

/-- Claim C3 (amended) witness at `sample_rate = 16000`,
`chunk_size = 1024`, one channel, duration 1. -/
theorem C3_backends_amended_witness :
    (PyAudioBackend.record 16000 1024 1 (fun _ => List.replicate 1024 0)).length =
      PyAudioBackend.num_chunks 16000 1024 1 * (1024 * 1) ∧
    (SoundDeviceBackend.record 16000 1 1 (fun _ _ => 0)).length =
      (pythonInt (1 * (16000 : ℚ))).toNat * 1 ∧
    (PyAudioBackend.record 16000 1024 1 (fun _ => List.replicate 1024 0)).length ≤
      (SoundDeviceBackend.record 16000 1 1 (fun _ _ => 0)).length :=
  C3_backends_amended 16000 1024 1 1 _ _ (by norm_num) (by norm_num)
    (fun _ => by rw [List.length_replicate])

/-- Claim C4: for nonnegative durations and a positive chunk size,
`PyAudioBackend.record` reads exactly `⌊sample_rate / chunk_size * duration⌋`
chunks of `chunk_size` frames each, and (with the default mono
configuration, one sample per frame) the returned buffer holds that many
chunks times `chunk_size` samples. -/
theorem C4_truncation (sample_rate chunk_size : ℕ) (d : ℚ)
    (read : ℕ → List ℤ) (hchunk : 0 < chunk_size) (hd : 0 ≤ d)
    (hread : ∀ i, (read i).length = chunk_size) :
    (PyAudioBackend.num_chunks sample_rate chunk_size d : ℤ) =
      ⌊(sample_rate : ℚ) / (chunk_size : ℚ) * d⌋ ∧
    (PyAudioBackend.record sample_rate chunk_size d read).length =
      PyAudioBackend.num_chunks sample_rate chunk_size d * chunk_size := by
  have hq0 : 0 ≤ (sample_rate : ℚ) / (chunk_size : ℚ) * d := by
    apply mul_nonneg _ hd
    positivity
  constructor
  · rw [PyAudioBackend.num_chunks, pythonInt, if_pos hq0,
      Int.toNat_of_nonneg (Int.floor_nonneg.mpr hq0)]
  · exact pyaudio_record_length sample_rate chunk_size d read chunk_size hread

/-- Claim C4 witness at `sample_rate = 16000`, `chunk_size = 1024`,
duration 1. -/
theorem C4_truncation_witness :
    (PyAudioBackend.num_chunks 16000 1024 1 : ℤ) =
      ⌊(16000 : ℚ) / (1024 : ℚ) * 1⌋ ∧
    (PyAudioBackend.record 16000 1024 1 (fun _ => List.replicate 1024 0)).length =
      PyAudioBackend.num_chunks 16000 1024 1 * 1024 :=
  C4_truncation 16000 1024 1 _ (by norm_num) (by norm_num)
    (fun _ => List.length_replicate 1024 0)

/-- Claim C5: for every calibration run, the result record has exactly
the keys `noise_level`, `max_amplitude`, `energy_threshold` and
`calibrated`; the `calibrated` flag is always `True`; and with a
recognizer present the stored threshold is `max(300, noise_level * 4)`,
which is at least 300. -/
theorem C5_calibrate (recognizer_present : Bool) (noise_level max_amplitude : ℚ) :
    (calibrate recognizer_present noise_level max_amplitude).map Prod.fst =
      ["noise_level", "max_amplitude", "energy_threshold", "calibrated"] ∧
    (calibrate recognizer_present noise_level max_amplitude).lookup "calibrated" =
      some (.pbool true) ∧
    (calibrate true noise_level max_amplitude).lookup "energy_threshold" =
      some (.prat (max 300 (noise_level * 4))) ∧
    (300 : ℚ) ≤ max 300 (noise_level * 4) :=
  ⟨rfl, rfl, rfl, le_max_left _ _⟩

/-- Claim C6: `save_recording` writes a WAV container whose channel
count is the backend's configured channel count, whose sample width is
2 bytes and whose frame rate is the backend's configured sample rate;
int16 input is written as is and float input is converted to int16, so
every written sample is in the int16 range. -/
theorem C6_save_recording (channels sample_rate : ℕ) (audio : AudioData)
    (h : int16_input audio) :
    (save_recording channels sample_rate audio).nchannels = channels ∧
    (save_recording channels sample_rate audio).sampwidth = 2 ∧
    (save_recording channels sample_rate audio).framerate = sample_rate ∧
    ∀ s ∈ (save_recording channels sample_rate audio).frames, is_int16 s := by
  refine ⟨rfl, rfl, rfl, ?_⟩
  cases audio with
  | inl a =>
    intro s hs
    exact h s hs
  | inr f =>
    intro s hs
    simp only [save_recording, List.mem_map] at hs
    obtain ⟨x, _, rfl⟩ := hs
    unfold int16_of_rat is_int16
    have h0 : 0 ≤ (pythonInt (x * 32767) + 32768) % 65536 :=
      Int.emod_nonneg _ (by norm_num)
    have h1 : (pythonInt (x * 32767) + 32768) % 65536 < 65536 :=
      Int.emod_lt_of_pos _ (by norm_num)
    omega

/-- Claim C6 witness: a float buffer `[1/2]` written as mono 16 kHz. -/
theorem C6_save_recording_witness :
    (save_recording 1 16000 (.inr [(1 : ℚ)/2])).nchannels = 1 ∧
    (save_recording 1 16000 (.inr [(1 : ℚ)/2])).sampwidth = 2 ∧
    (save_recording 1 16000 (.inr [(1 : ℚ)/2])).framerate = 16000 ∧
    ∀ s ∈ (save_recording 1 16000 (.inr [(1 : ℚ)/2])).frames, is_int16 s :=
  C6_save_recording 1 16000 (.inr [(1 : ℚ)/2]) trivial

/-- Claim C7: device listing always yields a (possibly empty) list whose
records are well-shaped — index, name, channel count, sample rate and
backend name — and `VoiceInput.list_devices` successfully converts every
backend dictionary into an `AudioDevice` whose backend field defaults to
the backend class name. -/
theorem C7_device_listing (py : Except String (List PaDeviceInfo))
    (sd : Except String (List SdDeviceInfo)) (infos : List PaDeviceInfo) :
    (∀ d ∈ list_audio_devices py sd, well_shaped d) ∧
    (∃ devs, voiceinput_list_devices "PyAudioBackend"
        (pyaudio_backend_list_devices infos) = some devs ∧
      ∀ a ∈ devs, a.backend = "PyAudioBackend") := by
  constructor
  · intro d hd
    have hpa : ∀ (i : ℕ) (info : PaDeviceInfo), well_shaped (pa_device_dict i info) :=
      fun i info =>
        ⟨⟨i, rfl⟩, ⟨info.name, rfl⟩, ⟨info.maxInputChannels, rfl⟩,
          ⟨pythonInt info.defaultSampleRate, rfl⟩, ⟨"pyaudio", rfl⟩⟩
    have hsdw : ∀ (i : ℕ) (info : SdDeviceInfo), well_shaped (sd_device_dict i info) :=
      fun i info =>
        ⟨⟨i, rfl⟩, ⟨info.name, rfl⟩, ⟨info.max_input_channels, rfl⟩,
          ⟨pythonInt info.default_samplerate, rfl⟩, ⟨"sounddevice", rfl⟩⟩
    cases py with
    | ok pinfos =>
      simp only [list_audio_devices] at hd
      by_cases hplist :
          (((pinfos.enum).filter (fun p => 0 < p.2.maxInputChannels)).map
            (fun p => pa_device_dict p.1 p.2)) = []
      · rw [if_pos hplist] at hd
        cases sd with
        | ok sinfos =>
          obtain ⟨p, _, rfl⟩ := List.mem_map.mp hd
          exact hsdw p.1 p.2
        | error e => simp at hd
      · rw [if_neg hplist] at hd
        obtain ⟨p, _, rfl⟩ := List.mem_map.mp hd
        exact hpa p.1 p.2
    | error e =>
      simp only [list_audio_devices] at hd
      cases sd with
      | ok sinfos =>
        simp only [if_pos rfl] at hd
        obtain ⟨p, _, rfl⟩ := List.mem_map.mp hd
        exact hsdw p.1 p.2
      | error e2 => simp at hd
  · apply vld_all_ok
    intro d hd
    unfold pyaudio_backend_list_devices at hd
    obtain ⟨p, _, rfl⟩ := List.mem_map.mp hd
    exact ⟨⟨p.1, p.2.name, p.2.maxInputChannels,
      pythonInt p.2.defaultSampleRate, "PyAudioBackend"⟩, rfl, rfl⟩

/-- Claim C7 witness: a one-device PyAudio enumeration. -/
theorem C7_device_listing_witness :
    well_shaped (pa_device_dict 0 ⟨"Default Mic", 2, 44100⟩) ∧
    (∃ devs, voiceinput_list_devices "PyAudioBackend"
        (pyaudio_backend_list_devices [⟨"Default Mic", 2, 44100⟩]) = some devs ∧
      ∀ a ∈ devs, a.backend = "PyAudioBackend") :=
  ⟨(C7_device_listing (.ok [⟨"Default Mic", 2, 44100⟩]) (.error "no sounddevice")
      [⟨"Default Mic", 2, 44100⟩]).1 _ (by decide),
   (C7_device_listing (.ok [⟨"Default Mic", 2, 44100⟩]) (.error "no sounddevice")
      [⟨"Default Mic", 2, 44100⟩]).2⟩

/-- Claim C8: in every `check_wsl2_audio` result, `audio_available` can
only be `True` on WSL2, and an empty `issues` list forces `is_wsl2`,
`wslg_available`, a set `PULSE_SERVER` and `audio_available`. -/
theorem C8_check_wsl2_audio (iswsl2 wslg : Bool) (pulse disp : Option String)
    (pactl_ok : Bool) :
    ((check_wsl2_audio iswsl2 wslg pulse disp pactl_ok).audio_available = true →
      iswsl2 = true) ∧
    ((check_wsl2_audio iswsl2 wslg pulse disp pactl_ok).issues = [] →
      iswsl2 = true ∧ wslg = true ∧ pulse ≠ none ∧
      (check_wsl2_audio iswsl2 wslg pulse disp pactl_ok).audio_available = true) := by
  cases iswsl2 <;> cases wslg <;> cases pactl_ok <;> cases pulse <;>
    simp [check_wsl2_audio, truthy]
  all_goals split_ifs
  all_goals simp_all

/-- Claim C8 witness: a healthy WSL2 probe yields empty issues, and the
theorem's implications then force all four facts. -/
theorem C8_check_wsl2_audio_witness :
    (true = true ∧ true = true ∧
      (some "unix:/mnt/wslg/PulseServer" : Option String) ≠ none ∧
      (check_wsl2_audio true true (some "unix:/mnt/wslg/PulseServer") none
        true).audio_available = true) ∧
    true = true :=
  ⟨(C8_check_wsl2_audio true true (some "unix:/mnt/wslg/PulseServer") none
      true).2 (by decide),
   (C8_check_wsl2_audio true true (some "unix:/mnt/wslg/PulseServer") none
      true).1 (by decide)⟩

/-- Claim C9: `get_default_input_device` returns `None` exactly when the
device listing is empty; otherwise it returns the first enumerated
device whose name contains `"default"` case-insensitively, or, when no
name does, the first device in enumeration order. -/
theorem C9_get_default_input_device (py : Except String (List PaDeviceInfo))
    (sd : Except String (List SdDeviceInfo)) :
    (get_default_input_device py sd = none ↔ list_audio_devices py sd = []) ∧
    (∀ d, get_default_input_device py sd = some d →
      ∃ i, i < (list_audio_devices py sd).length ∧
        ((list_audio_devices py sd).drop i).head? = some d ∧
        (∀ d' ∈ (list_audio_devices py sd).take i, has_default d' = false) ∧
        (has_default d = true ∨
          (i = 0 ∧ ∀ d' ∈ list_audio_devices py sd, has_default d' = false))) := by
  have hgd : get_default_input_device py sd =
      (if list_audio_devices py sd = [] then none
       else match (list_audio_devices py sd).find? has_default with
         | some x => some x
         | none => (list_audio_devices py sd).head?) := rfl
  rw [hgd]
  by_cases hempty : list_audio_devices py sd = []
  · rw [if_pos hempty]
    exact ⟨⟨fun _ => hempty, fun _ => rfl⟩, fun d hd => absurd hd (by simp)⟩
  · rw [if_neg hempty]
    cases hfind : (list_audio_devices py sd).find? has_default with
    | some d0 =>
      constructor
      · simp [hempty]
      · intro d hd
        obtain rfl : d0 = d := by simpa using hd
        obtain ⟨i, hi, hget, hpd, hall⟩ := find?_first _ d0 hfind
        exact ⟨i, hi, hget, hall, Or.inl hpd⟩
    | none =>
      constructor
      · obtain ⟨a, l, hal⟩ := List.exists_cons_of_ne_nil hempty
        rw [hal]
        simp
      · intro d hd
        refine ⟨0, List.length_pos.mpr hempty, by simpa using hd, by simp,
          Or.inr ⟨rfl, fun d' hd' => by
            simpa using List.find?_eq_none.mp hfind d' hd'⟩⟩

/-- Claim C9 witness: a two-device enumeration in which the second
device is the first whose name contains `"default"`. -/
theorem C9_get_default_input_device_witness :
    ∃ i, i < (list_audio_devices
        (.ok [⟨"Mic A", 2, 44100⟩, ⟨"Default Device", 1, 48000⟩])
        (.error "no sounddevice")).length ∧
      ((list_audio_devices
          (.ok [⟨"Mic A", 2, 44100⟩, ⟨"Default Device", 1, 48000⟩])
          (.error "no sounddevice")).drop i).head? =
        some (pa_device_dict 1 ⟨"Default Device", 1, 48000⟩) ∧
      (∀ d' ∈ (list_audio_devices
          (.ok [⟨"Mic A", 2, 44100⟩, ⟨"Default Device", 1, 48000⟩])
          (.error "no sounddevice")).take i, has_default d' = false) ∧
      (has_default (pa_device_dict 1 ⟨"Default Device", 1, 48000⟩) = true ∨
        (i = 0 ∧ ∀ d' ∈ list_audio_devices
          (.ok [⟨"Mic A", 2, 44100⟩, ⟨"Default Device", 1, 48000⟩])
          (.error "no sounddevice"), has_default d' = false)) :=
  (C9_get_default_input_device
      (.ok [⟨"Mic A", 2, 44100⟩, ⟨"Default Device", 1, 48000⟩])
      (.error "no sounddevice")).2
    (pa_device_dict 1 ⟨"Default Device", 1, 48000⟩) (by decide)

/-- Claim C10 (counterexample to the claim as stated): with
`PULSE_SERVER` set to the empty string — set, but falsy — and the WSLg
relay file present, `setup_wsl2_audio_env` overwrites it, so the
environment does not stay unchanged. -/
theorem C10_counterexample :
    setup_wsl2_audio_env ⟨true, true⟩ ⟨some "", some ":0"⟩ ≠
      (⟨some "", some ":0"⟩ : EnvState) := by
  decide

/-- Claim C10 (amended): when `PULSE_SERVER` is set to a non-empty value
on entry, `setup_wsl2_audio_env` leaves the environment unchanged; and a
non-empty `PULSE_SERVER` or `DISPLAY` value always keeps its value. -/
theorem C10_setup_env_amended (w : FsWorld) (env : EnvState) :
    (∀ s, env.pulse = some s → s ≠ "" → setup_wsl2_audio_env w env = env) ∧
    (∀ s, env.pulse = some s → s ≠ "" →
      (setup_wsl2_audio_env w env).pulse = some s) ∧
    (∀ s, env.display = some s → s ≠ "" →
      (setup_wsl2_audio_env w env).display = some s) := by
  have htp : ∀ (o : Option String) (s : String), o = some s → s ≠ "" →
      truthy o = true := by
    intro o s hs hne
    rw [hs]
    simpa [truthy] using hne
  have hfirst : ∀ s, env.pulse = some s → s ≠ "" →
      setup_wsl2_audio_env w env = env := by
    intro s hs hne
    unfold setup_wsl2_audio_env
    rw [if_pos (htp _ s hs hne)]
  refine ⟨hfirst, ?_, ?_⟩
  · intro s hs hne
    rw [hfirst s hs hne, hs]
  · intro s hs hne
    unfold setup_wsl2_audio_env
    by_cases hp : truthy env.pulse
    · rw [if_pos hp, hs]
    · rw [if_neg hp]
      have hd1 : (if w.pulseServerFile then
          ({ env with pulse := some "/mnt/wslg/PulseServer" } : EnvState)
          else env).display = some s := by
        split_ifs <;> simpa using hs
      have hstep : ∀ e : EnvState, e.display = some s →
          (setup_env_display w e).display = some s := by
        intro e he
        unfold setup_env_display
        have ht : truthy e.display = true := htp _ s he hne
        rw [if_neg (by simp [ht])]
        exact he
      exact hstep _ hd1

/-- Claim C10 (amended) witness: a non-empty `PULSE_SERVER` and
`DISPLAY` survive untouched even with both WSLg paths present. -/
theorem C10_setup_env_amended_witness :
    setup_wsl2_audio_env ⟨true, true⟩ ⟨some "unix:/tmp/pulse", some ":1"⟩ =
      (⟨some "unix:/tmp/pulse", some ":1"⟩ : EnvState) ∧
    (setup_wsl2_audio_env ⟨true, true⟩
      ⟨some "unix:/tmp/pulse", some ":1"⟩).pulse = some "unix:/tmp/pulse" ∧
    (setup_wsl2_audio_env ⟨true, true⟩
      ⟨some "unix:/tmp/pulse", some ":1"⟩).display = some ":1" :=
  ⟨(C10_setup_env_amended ⟨true, true⟩ _).1 "unix:/tmp/pulse" rfl (by decide),
   (C10_setup_env_amended ⟨true, true⟩ _).2.1 "unix:/tmp/pulse" rfl (by decide),
   (C10_setup_env_amended ⟨true, true⟩ _).2.2 ":1" rfl (by decide)⟩
